import Mathlib

/-!
Verification of the FitInsight data pipeline (`src/app.py`).

The pipeline loads an uploaded file into three pandas DataFrames
(members, attendance, payments), checks required member columns,
computes KPIs (total_members, active_members, total_revenue,
avg_revenue), merges attendance visit counts into the member table
with a left join, and labels each member with a churn-risk tier.

Shallow embedding: scalar cell values are `Val` (integer or string),
a DataFrame is a `Table` (column headers plus rows of cells), and a
pandas operation that raises an uncaught exception is modelled as
`Option.none`.
-/

/-- A scalar cell value: an integer or a string.  Pandas `==` between a
number and a string is `False`; `DecidableEq Val` gives the same. -/
inductive Val where
  | num (n : ℤ)
  | str (s : String)
deriving DecidableEq

/-- A DataFrame: a list of column headers and a list of rows of cells.
Rows are rectangular in every table the app builds. -/
structure Table where
  cols : List String
  rows : List (List Val)
deriving DecidableEq

/-- An empty DataFrame: `pd.DataFrame()` or `pd.DataFrame(columns=...)`, no rows. -/
def Table.emptyTable : Table := ⟨[], []⟩

/-- pandas `df.empty` for the tables the app builds: no rows. -/
def Table.isEmpty (t : Table) : Bool := t.rows.isEmpty

/-- Column access `df[c]`: the column named `c`, or `none` for a `KeyError`. -/
def Table.getCol (t : Table) (c : String) : Option (List Val) :=
  match t.cols.findIdx? (fun h => h = c) with
  | some i => some (t.rows.map (fun r => r.getD i (Val.str "")))
  | none => none

/-- An upload: a CSV file is a single table; an Excel file is a list of
named sheets. -/
inductive Upload where
  | csv (t : Table)
  | xlsx (sheets : List (String × Table))

/-- Sheet read `pd.read_excel(file, sheet_name=name)`: the sheet with that name,
or `none` when the workbook has no such sheet (pandas raises). -/
def readSheet (sheets : List (String × Table)) (name : String) : Option Table :=
  (sheets.find? (fun p => p.1 = name)).map Prod.snd

/-- app.py lines 130-141: for `.xlsx` read the three sheets "members",
"attendance", "payments" (any missing sheet raises, caught by the
`except` that shows "Invalid file format or missing sheets." and stops,
modelled as `none`); otherwise the CSV is the members table and
attendance and payments are empty DataFrames. -/
def load_data (u : Upload) : Option (Table × Table × Table) :=
  match u with
  | Upload.csv t => some (t, Table.emptyTable, Table.emptyTable)
  | Upload.xlsx sheets => do
      let m ← readSheet sheets "members"
      let a ← readSheet sheets "attendance"
      let p ← readSheet sheets "payments"
      some (m, a, p)

/-- app.py line 148. -/
def required_members : List String := ["member_id", "status", "plan_type", "trainer_name"]

/-- app.py line 149 (declared in the source but never checked anywhere). -/
def required_payments : List String := ["member_id", "amount"]

/-- app.py lines 151-154: the loop over `required_members` stops at the
first column missing from `members.columns` with
"Missing column: {col}"; `none` means every required member column is
present.  Only the members table is ever validated. -/
def missing_member_col (members : Table) : Option String :=
  required_members.find? (fun c => ¬ members.cols.contains c)

/-- pandas addition on object-dtype cells: number plus number adds,
string plus string concatenates, and a mixed pair raises `TypeError`
(`none`). -/
def pAdd : Val → Val → Option Val
  | Val.num a, Val.num b => some (Val.num (a + b))
  | Val.str a, Val.str b => some (Val.str (a ++ b))
  | _, _ => none

/-- Series sum `series.sum()`: 0 on an empty series, otherwise a left fold of
pandas addition over the cells; `none` when the fold raises. -/
def pandasSum (vs : List Val) : Option Val :=
  match vs with
  | [] => some (Val.num 0)
  | v :: rest => rest.foldlM pAdd v

/-- app.py line 159: `members["member_id"].nunique()`. -/
def total_members (members : Table) : Option ℕ :=
  (members.getCol "member_id").map (fun ids => ids.dedup.length)

/-- app.py line 160:
`members[members["status"] == "Active"]["member_id"].nunique()`.
The comparison is verbatim equality with the string "Active". -/
def active_members (members : Table) : Option ℕ := do
  let st ← members.getCol "status"
  let ids ← members.getCol "member_id"
  some ((((st.zip ids).filter (fun p => p.1 = Val.str "Active")).map Prod.snd).dedup.length)

/-- app.py lines 162-165: `payments["amount"].sum()` when the payments
table is nonempty (a `KeyError` on a missing amount column or a
`TypeError` in the sum is uncaught, `none`), else 0. -/
def total_revenue (payments : Table) : Option Val :=
  if payments.isEmpty then some (Val.num 0)
  else (payments.getCol "amount").bind pandasSum

/-- Floor of a rational, computed from numerator and denominator. -/
def ratFloor (q : ℚ) : ℤ := Int.fdiv q.num q.den

/-- Python `round` to the nearest integer, ties to the even integer. -/
def pyRound (q : ℚ) : ℤ :=
  let f := ratFloor q
  let r := q - (f : ℚ)
  if r < 1/2 then f
  else if (1:ℚ)/2 < r then f + 1
  else if f % 2 = 0 then f else f + 1

/-- Python `round(x, 2)`. -/
def pyRound2 (q : ℚ) : ℚ := (pyRound (q * 100) : ℚ) / 100

/-- app.py line 167:
`round(total_revenue / total_members, 2) if total_members else 0`. -/
def avg_revenue (tr : ℚ) (tm : ℕ) : ℚ :=
  if tm ≠ 0 then pyRound2 (tr / (tm : ℚ)) else 0

/-- The group-by `attendance.groupby("member_id").size()`: one pair per distinct key
with its row count.  Pandas sorts the keys; the app only ever looks the
keys up in the left join, so first-occurrence order is equivalent. -/
def groupbySize (keys : List Val) : List (Val × ℕ) :=
  keys.dedup.map (fun k => (k, keys.count k))

/-- app.py lines 172-175: the `visit_count` frame — group sizes when
attendance is nonempty (`none` on a `KeyError`), else an empty frame
with columns member_id, visit_count. -/
def visit_count (attendance : Table) : Option (List (Val × ℕ)) :=
  if attendance.isEmpty then some []
  else (attendance.getCol "member_id").map groupbySize

/-- The merge `members.merge(vc, on="member_id", how="left")` restricted to the
key and visit-count columns: each member row yields one output row per
matching right row, or a single row with a null count when no right row
matches. -/
def leftMerge (ids : List Val) (vc : List (Val × ℕ)) : List (Val × Option ℕ) :=
  ids.flatMap (fun i =>
    match vc.filter (fun p => p.1 = i) with
    | [] => [(i, none)]
    | ms => ms.map (fun p => (i, some p.2)))

/-- app.py lines 177-178: the merge followed by
`fillna(0)` on the visit_count column. -/
def members_attendance (members attendance : Table) : Option (List (Val × ℕ)) := do
  let ids ← members.getCol "member_id"
  let vc ← visit_count attendance
  some ((leftMerge ids vc).map (fun p => (p.1, p.2.getD 0)))

/-- app.py lines 180-185. -/
def risk_label (v : ℕ) : String :=
  if v ≤ 2 then "High Risk"
  else if v ≤ 5 then "Medium Risk"
  else "Low Risk"

/-- app.py line 187: `risk_label` applied to every merged visit count. -/
def risk_levels (members attendance : Table) : Option (List (Val × String)) :=
  (members_attendance members attendance).map
    (fun res => res.map (fun p => (p.1, risk_label p.2)))

/-!  Concrete tables used by the scenario theorems, witnesses and
counterexamples. -/

/-- The spec scenario members table: ids 1, 2, 3 with all required
columns present. -/
def membersC1 : Table :=
  ⟨["member_id", "status", "plan_type", "trainer_name"],
   [[Val.num 1, Val.str "Active", Val.str "Basic", Val.str "A"],
    [Val.num 2, Val.str "Active", Val.str "Basic", Val.str "A"],
    [Val.num 3, Val.str "Inactive", Val.str "Gold", Val.str "B"]]⟩

/-- The spec scenario attendance table: rows for members 1, 1, 1, 2. -/
def attC1 : Table :=
  ⟨["member_id", "visit_date"],
   [[Val.num 1, Val.str "d1"], [Val.num 1, Val.str "d2"],
    [Val.num 1, Val.str "d3"], [Val.num 2, Val.str "d4"]]⟩

/-- The spec example payments table with a malformed amount, read as an
object column of strings. -/
def payBad : Table :=
  ⟨["member_id", "amount"],
   [[Val.num 1, Val.str "100"], [Val.num 1, Val.str "bad"], [Val.num 2, Val.str "50"]]⟩

/-- An all-numeric payments table. -/
def payGood : Table :=
  ⟨["member_id", "amount"],
   [[Val.num 1, Val.num 100], [Val.num 2, Val.num 50]]⟩

/-- A members table whose only id-like header is "Customer ID". -/
def membersCust : Table :=
  ⟨["Customer ID", "status", "plan_type", "trainer_name"],
   [[Val.str "1", Val.str "Active", Val.str "Basic", Val.str "A"]]⟩

/-- One member whose raw status is "ACTIVE". -/
def membersUpper : Table :=
  ⟨["member_id", "status", "plan_type", "trainer_name"],
   [[Val.num 1, Val.str "ACTIVE", Val.str "Basic", Val.str "A"]]⟩

/-- One member whose raw status is "yes". -/
def membersYes : Table :=
  ⟨["member_id", "status", "plan_type", "trainer_name"],
   [[Val.num 1, Val.str "yes", Val.str "Basic", Val.str "A"]]⟩

/-- One member whose raw status is exactly "Active". -/
def membersExact : Table :=
  ⟨["member_id", "status", "plan_type", "trainer_name"],
   [[Val.num 1, Val.str "Active", Val.str "Basic", Val.str "A"]]⟩

/-- A nonempty payments table with no "amount" column. -/
def payNoAmount : Table :=
  ⟨["member_id", "paid"], [[Val.num 1, Val.num 100]]⟩

/-!  Helper lemmas. -/

/-- A column read from a table has one value per row. -/
theorem Table.getCol_length {t : Table} {c : String} {vs : List Val}
    (h : t.getCol c = some vs) : vs.length = t.rows.length := by
  unfold Table.getCol at h
  cases hf : t.cols.findIdx? (fun s => s = c) with
  | none => rw [hf] at h; cases h
  | some i => rw [hf] at h; cases h; simp

/-- In a list of pairs with pairwise-distinct first components, at most
one pair survives filtering on a fixed first component. -/
theorem filter_fst_length_le_one {vc : List (Val × ℕ)} {i : Val}
    (h : (vc.map Prod.fst).Nodup) :
    (vc.filter (fun p => p.1 = i)).length ≤ 1 := by
  induction vc with
  | nil => simp
  | cons p rest ih =>
    simp only [List.map_cons, List.nodup_cons] at h
    by_cases hp : p.1 = i
    · have hrest : rest.filter (fun q => q.1 = i) = [] := by
        rw [List.filter_eq_nil_iff]
        intro q hq
        simp only [decide_eq_true_eq]
        intro hqi
        exact h.1 (hp ▸ hqi ▸ List.mem_map_of_mem Prod.fst hq)
      simp [List.filter_cons, hp, hrest]
    · simpa [List.filter_cons, hp] using ih h.2

/-- When the right side of the merge has pairwise-distinct keys, the key
column of the merged frame is exactly the members key column. -/
theorem leftMerge_map_fst {vc : List (Val × ℕ)}
    (h : (vc.map Prod.fst).Nodup) (ids : List Val) :
    (leftMerge ids vc).map Prod.fst = ids := by
  induction ids with
  | nil => simp [leftMerge]
  | cons i rest ih =>
    unfold leftMerge at ih ⊢
    rw [List.flatMap_cons, List.map_append, ih]
    cases hf : vc.filter (fun p => p.1 = i) with
    | nil => simp
    | cons q qs =>
      have hlen : (vc.filter (fun p => p.1 = i)).length ≤ 1 :=
        filter_fst_length_le_one h
      rw [hf] at hlen
      have hqs : qs = [] := by
        cases qs with
        | nil => rfl
        | cons x xs => simp at hlen
      subst hqs
      simp

/-- Merge keys that have no attendance rows come out with a null count. -/
theorem leftMerge_not_mem {vc : List (Val × ℕ)} {ids : List Val} {p : Val × Option ℕ}
    (hp : p ∈ leftMerge ids vc) (hnm : vc.filter (fun q => q.1 = p.1) = []) :
    p.2 = none := by
  unfold leftMerge at hp
  rw [List.mem_flatMap] at hp
  obtain ⟨i, _, hpi⟩ := hp
  cases hf : vc.filter (fun q => q.1 = i) with
  | nil =>
    rw [hf] at hpi
    simp at hpi
    rw [hpi]
  | cons q qs =>
    rw [hf] at hpi
    simp only [List.mem_map] at hpi
    obtain ⟨r, _, hr⟩ := hpi
    exfalso
    have hpi1 : p.1 = i := by rw [← hr]
    have : q ∈ vc.filter (fun x => x.1 = p.1) := by
      rw [hpi1, hf]; exact List.mem_cons_self q qs
    rw [hnm] at this
    cases this

/-- The keys produced by the group-by are pairwise distinct. -/
theorem groupbySize_keys_nodup (keys : List Val) :
    ((groupbySize keys).map Prod.fst).Nodup := by
  unfold groupbySize
  rw [List.map_map]
  rw [show (Prod.fst ∘ fun k => (k, keys.count k)) = id from rfl, List.map_id]
  exact keys.nodup_dedup

/-- Whatever the attendance table, a successfully built visit-count
frame has pairwise-distinct keys. -/
theorem visit_count_keys_nodup {a : Table} {vc : List (Val × ℕ)}
    (h : visit_count a = some vc) : (vc.map Prod.fst).Nodup := by
  unfold visit_count at h
  split at h
  · cases h
    exact List.nodup_nil
  · cases hg : a.getCol "member_id" with
    | none => rw [hg] at h; cases h
    | some keys =>
      rw [hg] at h
      rw [Option.map_some'] at h
      cases h
      exact groupbySize_keys_nodup keys

/-- Merging against an empty right side pairs every key with null. -/
theorem leftMerge_nil (ids : List Val) :
    leftMerge ids [] = ids.map (fun i => (i, none)) := by
  induction ids with
  | nil => rfl
  | cons i rest ih => simp [leftMerge, List.flatMap_cons] at ih ⊢; exact ih

/-- An empty attendance table merges to visit count 0 for every member. -/
theorem members_attendance_empty {m : Table} {ids : List Val}
    (hi : m.getCol "member_id" = some ids) :
    members_attendance m Table.emptyTable = some (ids.map (fun i => (i, 0))) := by
  unfold members_attendance
  rw [hi]
  have hv : visit_count Table.emptyTable = some [] := rfl
  rw [hv]
  simp [leftMerge_nil, List.map_map]

/-- Folding pandas addition over an all-numeric tail adds it up. -/
theorem foldlM_pAdd_num (ns : List ℤ) (a : ℤ) :
    List.foldlM pAdd (Val.num a) (ns.map Val.num) = some (Val.num (a + ns.sum)) := by
  induction ns generalizing a with
  | nil => simp
  | cons n rest ih =>
    simp only [List.map_cons, List.foldlM_cons, pAdd, Option.bind_eq_bind, Option.some_bind]
    rw [ih (a + n), List.sum_cons, add_assoc]

/-- The pandas sum of an all-numeric column is the arithmetic sum. -/
theorem pandasSum_num (ns : List ℤ) :
    pandasSum (ns.map Val.num) = some (Val.num ns.sum) := by
  cases ns with
  | nil => rfl
  | cons n rest =>
    simp only [List.map_cons, pandasSum]
    rw [foldlM_pAdd_num]
    rw [List.sum_cons]

/-!  Claim theorems. -/

/-- C1: Risk classification follows the visit-count policy — at most 2
visits is High Risk, 3 to 5 is Medium Risk, more than 5 is Low Risk —
and on the scenario (members 1,2,3; attendance 1,1,1,2) the assembled
labels are 1 Medium, 2 High, 3 High. -/
theorem risk_label_policy_and_scenario :
    (∀ v : ℕ, v ≤ 2 → risk_label v = "High Risk") ∧
    (∀ v : ℕ, 3 ≤ v → v ≤ 5 → risk_label v = "Medium Risk") ∧
    (∀ v : ℕ, 5 < v → risk_label v = "Low Risk") ∧
    risk_levels membersC1 attC1 =
      some [(Val.num 1, "Medium Risk"), (Val.num 2, "High Risk"), (Val.num 3, "High Risk")] := by
  refine ⟨?_, ?_, ?_, by decide⟩
  · intro v h
    simp [risk_label, h]
  · intro v h3 h5
    have h2 : ¬ v ≤ 2 := by omega
    simp [risk_label, h2, h5]
  · intro v h
    have h2 : ¬ v ≤ 2 := by omega
    have h5 : ¬ v ≤ 5 := by omega
    simp [risk_label, h2, h5]

/-- C1 witness: the policy evaluated at 2, 4 and 6 visits. -/
theorem risk_label_policy_and_scenario_witness :
    risk_label 2 = "High Risk" ∧ risk_label 4 = "Medium Risk" ∧ risk_label 6 = "Low Risk" :=
  ⟨risk_label_policy_and_scenario.1 2 (by decide),
   risk_label_policy_and_scenario.2.1 4 (by decide) (by decide),
   risk_label_policy_and_scenario.2.2.1 6 (by decide)⟩

/-- C2 counterexample: on the spec's own example — amounts "100",
"bad", "50" — the code does not coerce the malformed entry to 0: the
object-dtype sum concatenates the strings, so total_revenue is the
string "100bad50", not the number 150. -/
theorem total_revenue_spec_example_cex :
    total_revenue payBad = some (Val.str "100bad50") ∧
    total_revenue payBad ≠ some (Val.num 150) := by
  decide

/-- C2 amended: total_revenue is 0 for an empty payments table and
otherwise the raw pandas sum of the amount column, with no coercion of
malformed values: an all-numeric column yields the plain arithmetic sum
of the raw amounts (which can be negative). -/
theorem total_revenue_raw_sum (p : Table) (nums : List ℤ)
    (hc : p.getCol "amount" = some (nums.map Val.num)) :
    total_revenue Table.emptyTable = some (Val.num 0) ∧
    (p.isEmpty = false → total_revenue p = some (Val.num nums.sum)) := by
  refine ⟨rfl, fun hne => ?_⟩
  unfold total_revenue
  rw [hne]
  simp only [Bool.false_eq_true, if_false, hc, Option.some_bind]
  exact pandasSum_num nums

/-- C2 witness: the amended statement at the all-numeric payments table
with amounts 100 and 50. -/
theorem total_revenue_raw_sum_witness :
    payGood.getCol "amount" = some (([100, 50] : List ℤ).map Val.num) ∧
    (total_revenue Table.emptyTable = some (Val.num 0) ∧
      (payGood.isEmpty = false →
        total_revenue payGood = some (Val.num ([100, 50] : List ℤ).sum))) :=
  ⟨by decide, total_revenue_raw_sum payGood [100, 50] (by decide)⟩

/-- C10: the payments schema is never validated — the members table of
the scenario passes the only column check in the pipeline, yet a
nonempty payments table with no amount column makes total_revenue raise
an uncaught KeyError instead of aborting with a named-column message or
degrading to 0. -/
theorem payments_schema_never_validated :
    missing_member_col membersC1 = none ∧
    Table.isEmpty payNoAmount = false ∧
    "amount" ∉ payNoAmount.cols ∧
    total_revenue payNoAmount = none := by
  decide

/-- C3 counterexample: an Excel upload whose workbook has a members
sheet but no attendance or payments sheet aborts processing (the
`except` branch shows "Invalid file format or missing sheets." and
stops) instead of treating the missing sources as empty. -/
theorem load_data_missing_sheets_abort_cex :
    load_data (Upload.xlsx [("members", membersC1)]) = none := by
  decide

/-- C3 amended: only for CSV uploads are the absent attendance and
payments sources treated as empty tables, with total revenue 0 and
every visit count 0; for Excel uploads a workbook missing the
attendance or the payments sheet aborts processing. -/
theorem load_data_csv_empty_sheets :
    (∀ t : Table, load_data (Upload.csv t) = some (t, Table.emptyTable, Table.emptyTable)) ∧
    (∀ sheets, readSheet sheets "attendance" = none → load_data (Upload.xlsx sheets) = none) ∧
    (∀ sheets, readSheet sheets "payments" = none → load_data (Upload.xlsx sheets) = none) ∧
    total_revenue Table.emptyTable = some (Val.num 0) ∧
    (∀ (m : Table) (ids : List Val), m.getCol "member_id" = some ids →
      members_attendance m Table.emptyTable = some (ids.map (fun i => (i, 0)))) := by
  refine ⟨fun t => rfl, ?_, ?_, rfl, fun m ids hi => members_attendance_empty hi⟩
  · intro sheets h
    cases hm : readSheet sheets "members" with
    | none => simp [load_data, hm]
    | some m => simp [load_data, hm, h]
  · intro sheets h
    cases hm : readSheet sheets "members" with
    | none => simp [load_data, hm]
    | some m =>
      cases ha : readSheet sheets "attendance" with
      | none => simp [load_data, hm, ha]
      | some a => simp [load_data, hm, ha, h]

/-- C3 witness: a workbook with members and attendance sheets but no
payments sheet aborts; a members table merged with the empty attendance
table yields visit count 0 for every member. -/
theorem load_data_csv_empty_sheets_witness :
    (readSheet [("members", membersC1), ("attendance", attC1)] "payments" = none) ∧
    load_data (Upload.xlsx [("members", membersC1), ("attendance", attC1)]) = none ∧
    (membersC1.getCol "member_id" = some [Val.num 1, Val.num 2, Val.num 3]) ∧
    members_attendance membersC1 Table.emptyTable =
      some ([Val.num 1, Val.num 2, Val.num 3].map (fun i => (i, 0))) :=
  ⟨by decide,
   load_data_csv_empty_sheets.2.2.1 _ (by decide),
   by decide,
   load_data_csv_empty_sheets.2.2.2.2 membersC1 _ (by decide)⟩

/-- C4 counterexample: a members table whose only id-like header is
"Customer ID" is rejected — the column check stops with
"Missing column: member_id" — rather than normalized to member_id. -/
theorem customer_id_header_rejected_cex :
    missing_member_col membersCust = some "member_id" := by
  decide

/-- C4 amended: no alias-based header normalization exists in the
pipeline; the members table must contain the literal canonical headers,
matching is exact, and any table without a literal "member_id" header —
such as one headed "Customer ID" — is rejected with
"Missing column: member_id". -/
theorem member_columns_exact_match :
    (∀ m : Table, missing_member_col m = none ↔ ∀ c ∈ required_members, c ∈ m.cols) ∧
    (∀ m : Table, "member_id" ∉ m.cols → missing_member_col m = some "member_id") := by
  constructor
  · intro m
    simp [missing_member_col, List.find?_eq_none, List.contains, List.elem_iff]
  · intro m h
    unfold missing_member_col required_members
    rw [List.find?_cons_of_pos]
    simp [List.contains, List.elem_iff]
    exact h

/-- C4 witness: the amended statement at a table with no columns. -/
theorem member_columns_exact_match_witness :
    ("member_id" ∉ Table.emptyTable.cols) ∧
    missing_member_col Table.emptyTable = some "member_id" :=
  ⟨by decide, member_columns_exact_match.2 Table.emptyTable (by decide)⟩

/-- C5 counterexample: two one-member tables differing only in the case
of the status token are counted differently — "Active" counts as
active, "ACTIVE" does not — refuting case-insensitive status coercion. -/
theorem active_status_case_sensitive_cex :
    active_members membersExact = some 1 ∧
    active_members membersUpper = some 0 ∧
    (1 : ℕ) ≠ 0 := by
  decide

/-- C5 amended: no status coercion is performed; active_members counts
distinct member ids among rows whose raw status is exactly the string
"Active", and a table none of whose raw status values is that literal —
including "ACTIVE", "yes", "1", "true" — contributes no active
members. -/
theorem active_members_exact_literal (m : Table) (st ids : List Val)
    (hs : m.getCol "status" = some st) (hi : m.getCol "member_id" = some ids)
    (h : ∀ v ∈ st, v ≠ Val.str "Active") :
    active_members m = some 0 := by
  unfold active_members
  rw [hs, hi]
  simp only [Option.bind_eq_bind, Option.some_bind]
  have hf : (st.zip ids).filter (fun p => p.1 = Val.str "Active") = [] := by
    rw [List.filter_eq_nil_iff]
    intro p hp
    simp only [decide_eq_true_eq]
    exact h p.1 (List.of_mem_zip hp).1
  rw [hf]
  simp

/-- C5 witness: the amended statement at the one-member table whose raw
status is "yes". -/
theorem active_members_exact_literal_witness :
    (membersYes.getCol "status" = some [Val.str "yes"]) ∧
    (membersYes.getCol "member_id" = some [Val.num 1]) ∧
    (∀ v ∈ [Val.str "yes"], v ≠ Val.str "Active") ∧
    active_members membersYes = some 0 :=
  ⟨by decide, by decide, by decide,
   active_members_exact_literal membersYes [Val.str "yes"] [Val.num 1]
     (by decide) (by decide) (by decide)⟩

/-- The key column of the group-by frame is the deduplicated raw key
column. -/
theorem groupbySize_map_fst (keys : List Val) :
    (groupbySize keys).map Prod.fst = keys.dedup := by
  unfold groupbySize
  rw [List.map_map]
  rw [show (Prod.fst ∘ fun k => (k, keys.count k)) = id from rfl, List.map_id]

/-- No entry survives a filter on a key absent from the list. -/
theorem filter_fst_eq_nil {vc : List (Val × ℕ)} {i : Val}
    (h : i ∉ vc.map Prod.fst) : vc.filter (fun p => p.1 = i) = [] := by
  rw [List.filter_eq_nil_iff]
  intro q hq
  simp only [decide_eq_true_eq]
  intro hqi
  exact h (hqi ▸ List.mem_map_of_mem Prod.fst hq)

/-- Every key of the visit-count frame occurs in the raw attendance key
column. -/
theorem visit_count_keys_sub {a : Table} {vc : List (Val × ℕ)} {akeys : List Val}
    (hv : visit_count a = some vc) (hak : a.getCol "member_id" = some akeys) :
    ∀ k ∈ vc.map Prod.fst, k ∈ akeys := by
  unfold visit_count at hv
  split at hv
  · cases hv
    simp
  · rw [hak, Option.map_some'] at hv
    cases hv
    intro k hk
    rw [groupbySize_map_fst] at hk
    exact List.mem_dedup.mp hk

/-- The key column of the merged frame is exactly the members key
column: the merge neither drops nor duplicates member rows. -/
theorem members_attendance_map_fst {m a : Table} {ids : List Val} {res : List (Val × ℕ)}
    (hi : m.getCol "member_id" = some ids)
    (hr : members_attendance m a = some res) :
    res.map Prod.fst = ids := by
  unfold members_attendance at hr
  rw [hi] at hr
  cases hv : visit_count a with
  | none => rw [hv] at hr; cases hr
  | some vc =>
    rw [hv] at hr
    simp only [Option.bind_eq_bind, Option.some_bind, Option.some.injEq] at hr
    subst hr
    rw [List.map_map]
    rw [show (Prod.fst ∘ fun p : Val × Option ℕ => (p.1, p.2.getD 0)) = Prod.fst from rfl]
    exact leftMerge_map_fst (visit_count_keys_nodup hv) ids

/-- A merged member whose id is absent from the attendance key column
carries visit count 0. -/
theorem members_attendance_zero_of_not_mem {m a : Table} {ids akeys : List Val}
    {res : List (Val × ℕ)}
    (hi : m.getCol "member_id" = some ids)
    (hr : members_attendance m a = some res)
    (hak : a.getCol "member_id" = some akeys) :
    ∀ p ∈ res, p.1 ∉ akeys → p.2 = 0 := by
  unfold members_attendance at hr
  rw [hi] at hr
  cases hv : visit_count a with
  | none => rw [hv] at hr; cases hr
  | some vc =>
    rw [hv] at hr
    simp only [Option.bind_eq_bind, Option.some_bind, Option.some.injEq] at hr
    subst hr
    intro p hp hnm
    rw [List.mem_map] at hp
    obtain ⟨q, hq, hfq⟩ := hp
    have h1 : q.1 = p.1 := by rw [← hfq]
    have hqnm : q.1 ∉ vc.map Prod.fst := by
      intro hmem
      exact hnm (h1 ▸ visit_count_keys_sub hv hak q.1 hmem)
    have hq2 : q.2 = none := leftMerge_not_mem hq (filter_fst_eq_nil hqnm)
    rw [← hfq, hq2]
    rfl

/-- C6: the attendance merge has left-join semantics — the assembled
set has exactly one row per members row, its keys are exactly the
members key column in order, and a member with no attendance rows gets
visit count 0. -/
theorem attendance_merge_left_join (m a : Table) (ids : List Val) (res : List (Val × ℕ))
    (hi : m.getCol "member_id" = some ids)
    (hr : members_attendance m a = some res) :
    res.length = m.rows.length ∧
    res.map Prod.fst = ids ∧
    (∀ akeys, a.getCol "member_id" = some akeys →
      ∀ p ∈ res, p.1 ∉ akeys → p.2 = 0) := by
  have hfst := members_attendance_map_fst hi hr
  refine ⟨?_, hfst, fun akeys hak => members_attendance_zero_of_not_mem hi hr hak⟩
  calc res.length = (res.map Prod.fst).length := (List.length_map res Prod.fst).symm
    _ = ids.length := by rw [hfst]
    _ = m.rows.length := Table.getCol_length hi

/-- C6 witness: the left join evaluated on the scenario tables. -/
theorem attendance_merge_left_join_witness :
    (membersC1.getCol "member_id" = some [Val.num 1, Val.num 2, Val.num 3]) ∧
    (members_attendance membersC1 attC1 =
      some [(Val.num 1, 3), (Val.num 2, 1), (Val.num 3, 0)]) ∧
    (([(Val.num 1, 3), (Val.num 2, 1), (Val.num 3, 0)] : List (Val × ℕ)).length =
        membersC1.rows.length ∧
      ([(Val.num 1, 3), (Val.num 2, 1), (Val.num 3, 0)] : List (Val × ℕ)).map Prod.fst =
        [Val.num 1, Val.num 2, Val.num 3] ∧
      (∀ akeys, attC1.getCol "member_id" = some akeys →
        ∀ p ∈ ([(Val.num 1, 3), (Val.num 2, 1), (Val.num 3, 0)] : List (Val × ℕ)),
          p.1 ∉ akeys → p.2 = 0)) :=
  ⟨by decide, by decide,
   attendance_merge_left_join membersC1 attC1 [Val.num 1, Val.num 2, Val.num 3]
     [(Val.num 1, 3), (Val.num 2, 1), (Val.num 3, 0)] (by decide) (by decide)⟩

/-- C8: when the members table has pairwise-distinct member ids, the
assembled set after the merge has exactly one row per member id — its
key list equals the members key column, is duplicate-free, and has the
members table's length. -/
theorem member_ids_unique_after_merge (m a : Table) (ids : List Val) (res : List (Val × ℕ))
    (hi : m.getCol "member_id" = some ids) (hnd : ids.Nodup)
    (hr : members_attendance m a = some res) :
    res.map Prod.fst = ids ∧ (res.map Prod.fst).Nodup ∧ res.length = ids.length := by
  have hfst := members_attendance_map_fst hi hr
  refine ⟨hfst, hfst ▸ hnd, ?_⟩
  calc res.length = (res.map Prod.fst).length := (List.length_map res Prod.fst).symm
    _ = ids.length := by rw [hfst]

/-- C8 witness: uniqueness of merged ids on the scenario tables. -/
theorem member_ids_unique_after_merge_witness :
    (membersC1.getCol "member_id" = some [Val.num 1, Val.num 2, Val.num 3]) ∧
    ([Val.num 1, Val.num 2, Val.num 3] : List Val).Nodup ∧
    (([(Val.num 1, 3), (Val.num 2, 1), (Val.num 3, 0)] : List (Val × ℕ)).map Prod.fst =
        [Val.num 1, Val.num 2, Val.num 3] ∧
      (([(Val.num 1, 3), (Val.num 2, 1), (Val.num 3, 0)] : List (Val × ℕ)).map Prod.fst).Nodup ∧
      ([(Val.num 1, 3), (Val.num 2, 1), (Val.num 3, 0)] : List (Val × ℕ)).length =
        ([Val.num 1, Val.num 2, Val.num 3] : List Val).length) :=
  ⟨by decide, by decide,
   member_ids_unique_after_merge membersC1 attC1 [Val.num 1, Val.num 2, Val.num 3]
     [(Val.num 1, 3), (Val.num 2, 1), (Val.num 3, 0)] (by decide) (by decide) (by decide)⟩

/-- C9: a CSV upload always yields empty attendance and payments
tables, so total revenue is 0, every member's visit count defaults to
0, and every member is labeled High Risk — the classification
degenerates to a single tier on CSV inputs. -/
theorem csv_upload_all_high_risk (t : Table) (ids : List Val)
    (hi : t.getCol "member_id" = some ids) :
    load_data (Upload.csv t) = some (t, Table.emptyTable, Table.emptyTable) ∧
    total_revenue Table.emptyTable = some (Val.num 0) ∧
    risk_levels t Table.emptyTable = some (ids.map (fun i => (i, "High Risk"))) := by
  refine ⟨rfl, rfl, ?_⟩
  unfold risk_levels
  rw [members_attendance_empty hi, Option.map_some']
  rw [List.map_map]
  rfl

/-- C9 witness: the CSV degeneration on the scenario members table. -/
theorem csv_upload_all_high_risk_witness :
    (membersC1.getCol "member_id" = some [Val.num 1, Val.num 2, Val.num 3]) ∧
    (load_data (Upload.csv membersC1) =
        some (membersC1, Table.emptyTable, Table.emptyTable) ∧
      total_revenue Table.emptyTable = some (Val.num 0) ∧
      risk_levels membersC1 Table.emptyTable =
        some (([Val.num 1, Val.num 2, Val.num 3] : List Val).map (fun i => (i, "High Risk")))) :=
  ⟨by decide,
   csv_upload_all_high_risk membersC1 [Val.num 1, Val.num 2, Val.num 3] (by decide)⟩

/-- C7: average revenue per member is the two-decimal rounding of
total revenue over member count when the member count is nonzero, and
is 0 by definition when the member count is zero — the division is
never executed with a zero denominator, including on a zero-row
members table, whose distinct-member count is 0. -/
theorem avg_revenue_guarded_division (tr : ℚ) (tm : ℕ) (h : tm ≠ 0) :
    avg_revenue tr tm = pyRound2 (tr / (tm : ℚ)) ∧
    avg_revenue tr 0 = 0 ∧
    (∀ m : Table, m.getCol "member_id" = some [] → total_members m = some 0) := by
  refine ⟨?_, ?_, ?_⟩
  · simp [avg_revenue, h]
  · simp [avg_revenue]
  · intro m hm
    simp [total_members, hm]

/-- C7 witness: the guarded division at total revenue 100 and 2
members, and at 0 members. -/
theorem avg_revenue_guarded_division_witness :
    ((2 : ℕ) ≠ 0) ∧
    (avg_revenue 100 2 = pyRound2 ((100 : ℚ) / (((2 : ℕ) : ℚ))) ∧
      avg_revenue 100 0 = 0 ∧
      (∀ m : Table, m.getCol "member_id" = some [] → total_members m = some 0)) :=
  ⟨by decide, avg_revenue_guarded_division 100 2 (by decide)⟩
